import Mathlib

/-!
Verification of the svalinn/vordr container engine core against its
natural-language specification.  The Rust source under `src/vordr/src/`
is shallowly embedded: pure functions become Lean functions, the SQLite
tables become lists of row structures, the SQL statements become explicit
transformations on those lists, and fallible operations return `Except`.
Timestamps (`CURRENT_TIMESTAMP`) are passed explicitly as a `now : Nat`
parameter; the process-liveness probe (signal-0 delivery) is passed as a
boolean oracle.
-/

namespace Vordr

/-- Container lifecycle state, from `ContainerState` in `engine/state.rs`. -/
inductive ContainerState
  | created
  | running
  | paused
  | stopped
deriving DecidableEq, Repr

/-- `ContainerState::as_str` from `engine/state.rs`. -/
def ContainerState.as_str : ContainerState → String
  | .created => "created"
  | .running => "running"
  | .paused => "paused"
  | .stopped => "stopped"

/-- `ContainerState::from_str` from `engine/state.rs`: the four valid
strings decode to their state, anything else to `None`. -/
def ContainerState.from_str (s : String) : Option ContainerState :=
  if s = "created" then some .created
  else if s = "running" then some .running
  else if s = "paused" then some .paused
  else if s = "stopped" then some .stopped
  else none

/-- The state-column decoding used by `StateManager::get_container` and
`StateManager::row_to_container_info` in `engine/state.rs`:
`ContainerState::from_str(&state_str).unwrap_or(ContainerState::Created)`. -/
def decode_state (s : String) : ContainerState :=
  (ContainerState.from_str s).getD ContainerState.created

/-- A row of the `containers` table / `ContainerInfo` from `engine/state.rs`.
Timestamps are modelled as natural numbers. -/
structure ContainerRow where
  id : String
  name : String
  image_id : String
  bundle_path : String
  state : ContainerState
  pid : Option Int
  exit_code : Option Int
  created_at : Nat
  started_at : Option Nat
  finished_at : Option Nat
  config : Option String
deriving DecidableEq, Repr

/-- `StateError` from `engine/state.rs`.  Note that the source has
already-exists variants only for containers and images; network and
volume inserts have no such variant. -/
inductive StateError
  | database (msg : String)
  | containerNotFound (id : String)
  | containerAlreadyExists (name : String)
  | imageNotFound (id : String)
  | imageAlreadyExists (id : String)
  | networkNotFound (id : String)
  | volumeNotFound (id : String)
  | lockFailed (resource : String)
deriving DecidableEq, Repr

/-- Whether a `StateError` is AlreadyExists-classified. -/
def StateError.isAlreadyExists : StateError → Bool
  | .containerAlreadyExists _ => true
  | .imageAlreadyExists _ => true
  | _ => false

/-- The SQL UPDATE of `StateManager::set_container_state` applied to a
single row (the row whose `id` matched the WHERE clause):

    UPDATE containers SET state = ?1, pid = ?2,
      started_at  = CASE WHEN ?1 = 'running' THEN CURRENT_TIMESTAMP ELSE started_at  END,
      finished_at = CASE WHEN ?1 = 'stopped' THEN CURRENT_TIMESTAMP ELSE finished_at END

where `?1 = state.as_str()` and `CURRENT_TIMESTAMP` is `now`. -/
def set_state_row (row : ContainerRow) (state : ContainerState) (pid : Option Int)
    (now : Nat) : ContainerRow :=
  { row with
    state := state
    pid := pid
    started_at := if state.as_str = "running" then some now else row.started_at
    finished_at := if state.as_str = "stopped" then some now else row.finished_at }

/-- `StateManager::set_container_state` over the whole `containers` table:
the UPDATE touches every row whose `id` matches, and when no row matches
(zero rows changed) the call returns `ContainerNotFound`. -/
def set_container_state (db : List ContainerRow) (id : String) (state : ContainerState)
    (pid : Option Int) (now : Nat) : Except StateError (List ContainerRow) :=
  if db.any (fun r => r.id = id) then
    .ok (db.map (fun r => if r.id = id then set_state_row r state pid now else r))
  else
    .error (.containerNotFound id)

end Vordr

namespace Vordr

/-- Claim C9: for every stored state string outside the four valid values,
`from_str` yields `None` and the decoding used by `get_container` and
`list_containers` falls back to `Created` instead of failing. -/
theorem c9_state_decode (s : String)
    (h : s ≠ "created" ∧ s ≠ "running" ∧ s ≠ "paused" ∧ s ≠ "stopped") :
    ContainerState.from_str s = none ∧ decode_state s = ContainerState.created := by
  obtain ⟨h1, h2, h3, h4⟩ := h
  constructor
  · simp [ContainerState.from_str, h1, h2, h3, h4]
  · simp [decode_state, ContainerState.from_str, h1, h2, h3, h4, Option.getD]

/-- Witness for C9 at the concrete corrupted value "zombie". -/
theorem c9_state_decode_witness :
    ("zombie" ≠ "created" ∧ "zombie" ≠ "running" ∧ "zombie" ≠ "paused" ∧
      "zombie" ≠ "stopped") ∧
    (ContainerState.from_str "zombie" = none ∧
      decode_state "zombie" = ContainerState.created) :=
  ⟨by decide, c9_state_decode "zombie" (by decide)⟩

/-- A concrete paused container row used to refute claim C2: it was first
started at time 5 and later paused. -/
def pausedRow : ContainerRow :=
  { id := "c1", name := "web", image_id := "img1", bundle_path := "/r/containers/c1"
    state := .paused, pid := some 33, exit_code := none
    created_at := 1, started_at := some 5, finished_at := none, config := none }

/-- Claim C2 as stated is false: resuming the paused container (a second,
later transition to Running at time 10) overwrites `started_at`, because the
SQL CASE tests only the target state, not whether `started_at` is already
set.  The update does not preserve the original `started_at = 5`. -/
theorem c2_counterexample :
    set_container_state [pausedRow] "c1" .running (some 33) 10 =
      .ok [{ pausedRow with state := .running, started_at := some 10 }] ∧
    ({ pausedRow with state := .running, started_at := some 10 } :
      ContainerRow).started_at ≠ pausedRow.started_at := by
  constructor
  · rfl
  · decide

/-- Claim C2 amended: `set_container_state` sets `started_at = now` on every
transition to Running (first or not — in particular a Paused-to-Running
resume overwrites it), sets `finished_at = now` on every transition to
Stopped, and preserves both timestamps on all other transitions; `state` and
`pid` are always overwritten and `created_at` is preserved. -/
theorem c2_amended (row : ContainerRow) (state : ContainerState) (pid : Option Int)
    (now : Nat) :
    (set_state_row row state pid now).started_at =
      (if state = ContainerState.running then some now else row.started_at) ∧
    (set_state_row row state pid now).finished_at =
      (if state = ContainerState.stopped then some now else row.finished_at) ∧
    (set_state_row row state pid now).state = state ∧
    (set_state_row row state pid now).pid = pid ∧
    (set_state_row row state pid now).created_at = row.created_at := by
  cases state <;> simp [set_state_row, ContainerState.as_str]

end Vordr

namespace Vordr

/-- The fixed capability list returned by the privileged branch of
`OciConfigBuilder::get_default_capabilities` in `engine/config.rs`,
in source order. -/
def privileged_capabilities : List String :=
  ["CAP_AUDIT_CONTROL", "CAP_AUDIT_READ", "CAP_AUDIT_WRITE", "CAP_BLOCK_SUSPEND",
   "CAP_CHOWN", "CAP_DAC_OVERRIDE", "CAP_DAC_READ_SEARCH", "CAP_FOWNER",
   "CAP_FSETID", "CAP_IPC_LOCK", "CAP_IPC_OWNER", "CAP_KILL", "CAP_LEASE",
   "CAP_LINUX_IMMUTABLE", "CAP_MAC_ADMIN", "CAP_MAC_OVERRIDE", "CAP_MKNOD",
   "CAP_NET_ADMIN", "CAP_NET_BIND_SERVICE", "CAP_NET_BROADCAST", "CAP_NET_RAW",
   "CAP_SETFCAP", "CAP_SETGID", "CAP_SETPCAP", "CAP_SETUID", "CAP_SYSLOG",
   "CAP_SYS_ADMIN", "CAP_SYS_BOOT", "CAP_SYS_CHROOT", "CAP_SYS_MODULE",
   "CAP_SYS_NICE", "CAP_SYS_PACCT", "CAP_SYS_PTRACE", "CAP_SYS_RAWIO",
   "CAP_SYS_RESOURCE", "CAP_SYS_TIME", "CAP_SYS_TTY_CONFIG", "CAP_WAKE_ALARM"]

/-- The default unprivileged capability baseline of
`OciConfigBuilder::get_default_capabilities`, in source order. -/
def default_unprivileged_capabilities : List String :=
  ["CAP_CHOWN", "CAP_DAC_OVERRIDE", "CAP_FSETID", "CAP_FOWNER", "CAP_MKNOD",
   "CAP_NET_RAW", "CAP_SETGID", "CAP_SETUID", "CAP_SETFCAP", "CAP_SETPCAP",
   "CAP_NET_BIND_SERVICE", "CAP_SYS_CHROOT", "CAP_KILL", "CAP_AUDIT_WRITE"]

/-- The capability-name normalisation applied to each `cap_add` / `cap_drop`
entry: keep names already starting with CAP_, otherwise prefix CAP_ to the
uppercased name. -/
def normalize_cap (cap : String) : String :=
  if cap.startsWith "CAP_" then cap else "CAP_" ++ cap.toUpper

/-- `OciConfigBuilder::get_default_capabilities` from `engine/config.rs`:
in privileged mode it returns the fixed full list immediately (ignoring
`cap_add` and `cap_drop`); otherwise it unions the normalised `cap_add`
names into the unprivileged baseline (skipping duplicates, preserving
insertion order) and then removes the normalised `cap_drop` names. -/
def get_default_capabilities (privileged : Bool) (cap_add cap_drop : List String) :
    List String :=
  if privileged then
    privileged_capabilities
  else
    let caps := cap_add.foldl
      (fun caps cap =>
        let cap_name := normalize_cap cap
        if caps.contains cap_name then caps else caps ++ [cap_name])
      default_unprivileged_capabilities
    cap_drop.foldl
      (fun caps cap =>
        let cap_name := normalize_cap cap
        caps.filter (fun c => c ≠ cap_name))
      caps

/-- The five OCI capability sets emitted by `OciConfigBuilder::build`. -/
structure LinuxCapabilities where
  bounding : List String
  effective : List String
  inheritable : List String
  permitted : List String
  ambient : List String
deriving DecidableEq, Repr

/-- The capability part of `OciConfigBuilder::build`: a single call to
`get_default_capabilities` populates all five sets identically. -/
def build_capabilities (privileged : Bool) (cap_add cap_drop : List String) :
    LinuxCapabilities :=
  let default_caps := get_default_capabilities privileged cap_add cap_drop
  ⟨default_caps, default_caps, default_caps, default_caps, default_caps⟩

/-- Claim C3 as stated is false in one respect: the fixed privileged list
has 38 entries, not 37.  Evaluated at privileged mode with no caller
adjustments, the emitted set has length 38. -/
theorem c3_counterexample :
    (get_default_capabilities true [] []).length = 38 ∧
    (get_default_capabilities true [] []).length ≠ 37 := by
  constructor
  · decide
  · decide

/-- Claim C3 amended: in privileged mode the emitted capability set is the
fixed list of 38 standard capabilities, used identically for all five OCI
capability sets, and the `cap_add` / `cap_drop` adjustments of the caller
have no effect on it. -/
theorem c3_amended (cap_add cap_drop : List String) :
    (build_capabilities true cap_add cap_drop).bounding = privileged_capabilities ∧
    (build_capabilities true cap_add cap_drop).effective = privileged_capabilities ∧
    (build_capabilities true cap_add cap_drop).inheritable = privileged_capabilities ∧
    (build_capabilities true cap_add cap_drop).permitted = privileged_capabilities ∧
    (build_capabilities true cap_add cap_drop).ambient = privileged_capabilities ∧
    privileged_capabilities.length = 38 := by
  refine ⟨rfl, rfl, rfl, rfl, rfl, by decide⟩

end Vordr

namespace Vordr

/-- A row of the `images` table / `ImageInfo` from `engine/state.rs`. -/
structure ImageRow where
  id : String
  digest : String
  repository : Option String
  tags : List String
  size : Int
  created_at : Nat
deriving DecidableEq, Repr

/-- A row of the `networks` table / `NetworkInfo` from `engine/state.rs`. -/
structure NetworkRow where
  id : String
  name : String
  driver : String
  subnet : Option String
  gateway : Option String
  options : Option String
  created_at : Nat
deriving DecidableEq, Repr

/-- A row of the `volumes` table / `VolumeInfo` from `engine/state.rs`. -/
structure VolumeRow where
  id : String
  name : String
  driver : String
  mountpoint : String
  options : Option String
  labels : Option String
  created_at : Nat
deriving DecidableEq, Repr

/-- Modelled from the spec: `schema.sql` is not under `src/` (it is pulled
in by `include_str!`), so the INSERT uniqueness constraints come from the
spec — images.id is the primary key and images.digest is uniquely indexed. -/
def image_insert_conflict (db : List ImageRow) (id digest : String) : Bool :=
  db.any (fun r => r.id = id ∨ r.digest = digest)

/-- `StateManager::create_image` from `engine/state.rs`: a constraint
violation of the INSERT is mapped to `ImageAlreadyExists`. -/
def create_image (db : List ImageRow) (id digest : String) (repository : Option String)
    (tags : List String) (size : Int) (now : Nat) : Except StateError (List ImageRow) :=
  if image_insert_conflict db id digest then
    .error (.imageAlreadyExists id)
  else
    .ok (db ++ [{ id := id, digest := digest, repository := repository,
                  tags := tags, size := size, created_at := now }])

/-- Modelled from the spec: networks.id is the primary key and
networks.name is unique (schema.sql absent from src). -/
def network_insert_conflict (db : List NetworkRow) (id name : String) : Bool :=
  db.any (fun r => r.id = id ∨ r.name = name)

/-- `StateManager::create_network` from `engine/state.rs`: the INSERT error
is propagated unmapped through the `?` operator, so a constraint violation
surfaces as the underlying `Database` error — the source has no
already-exists branch (and `StateError` has no network already-exists
variant at all). -/
def create_network (db : List NetworkRow) (id name driver : String)
    (subnet gateway options : Option String) (now : Nat) :
    Except StateError (List NetworkRow) :=
  if network_insert_conflict db id name then
    .error (.database "UNIQUE constraint failed")
  else
    .ok (db ++ [{ id := id, name := name, driver := driver, subnet := subnet,
                  gateway := gateway, options := options, created_at := now }])

/-- Modelled from the spec: volumes.id is the primary key and volumes.name
is unique (schema.sql absent from src). -/
def volume_insert_conflict (db : List VolumeRow) (id name : String) : Bool :=
  db.any (fun r => r.id = id ∨ r.name = name)

/-- `StateManager::create_volume` from `engine/state.rs`: like
`create_network`, the INSERT error is propagated unmapped, so a collision
surfaces as a `Database` error, never an already-exists classification. -/
def create_volume (db : List VolumeRow) (id name driver mountpoint : String)
    (options labels : Option String) (now : Nat) :
    Except StateError (List VolumeRow) :=
  if volume_insert_conflict db id name then
    .error (.database "UNIQUE constraint failed")
  else
    .ok (db ++ [{ id := id, name := name, driver := driver, mountpoint := mountpoint,
                  options := options, labels := labels, created_at := now }])

/-- A concrete existing network row for the C4 counterexample. -/
def netRow0 : NetworkRow :=
  { id := "net1", name := "bridge0", driver := "bridge", subnet := none,
    gateway := none, options := none, created_at := 0 }

/-- A concrete existing volume row for the C4 counterexample. -/
def volRow0 : VolumeRow :=
  { id := "vol1", name := "data", driver := "local", mountpoint := "/v/data",
    options := none, labels := none, created_at := 0 }

/-- Claim C4 as stated is false: creating a network or a volume whose name
collides with an existing row fails with the raw `Database` error, which is
not AlreadyExists-classified — unlike `create_image`, which does map the
collision to `ImageAlreadyExists`. -/
theorem c4_counterexample :
    create_network [netRow0] "net2" "bridge0" "bridge" none none none 1 =
      .error (.database "UNIQUE constraint failed") ∧
    (StateError.database "UNIQUE constraint failed").isAlreadyExists = false ∧
    create_volume [volRow0] "vol2" "data" "local" "/v/data2" none none 1 =
      .error (.database "UNIQUE constraint failed") ∧
    create_image [{ id := "img1", digest := "sha256:aa", repository := none,
                    tags := [], size := 4, created_at := 0 }]
        "img2" "sha256:aa" none [] 4 1 =
      .error (.imageAlreadyExists "img2") ∧
    (StateError.imageAlreadyExists "img2").isAlreadyExists = true := by
  refine ⟨rfl, rfl, rfl, rfl, rfl⟩

/-- Claim C4 amended: on a primary-key or unique-name collision,
`create_network` and `create_volume` fail with the unmapped `Database`
error (not an AlreadyExists classification), while `create_image` fails
with the AlreadyExists-classified `ImageAlreadyExists` on a primary-key or
unique-digest collision — the network and volume paths do not mirror the
image error semantics. -/
theorem c4_amended (nets : List NetworkRow) (vols : List VolumeRow)
    (imgs : List ImageRow) (id name driver mountpoint digest : String)
    (now : Nat)
    (hn : network_insert_conflict nets id name = true)
    (hv : volume_insert_conflict vols id name = true)
    (hi : image_insert_conflict imgs id digest = true) :
    create_network nets id name driver none none none now =
      .error (.database "UNIQUE constraint failed") ∧
    create_volume vols id name driver mountpoint none none now =
      .error (.database "UNIQUE constraint failed") ∧
    (StateError.database "UNIQUE constraint failed").isAlreadyExists = false ∧
    create_image imgs id digest none [] 0 now = .error (.imageAlreadyExists id) ∧
    (StateError.imageAlreadyExists id).isAlreadyExists = true := by
  refine ⟨?_, ?_, rfl, ?_, rfl⟩
  · simp [create_network, hn]
  · simp [create_volume, hv]
  · simp [create_image, hi]

/-- A volume row whose name matches the name of `netRow0`, for the C4 witness. -/
def volRow1 : VolumeRow :=
  { id := "vol9", name := "bridge0", driver := "local", mountpoint := "/v/b0",
    options := none, labels := none, created_at := 0 }

/-- An image row used by the C4 witness (collides on id "x"). -/
def imgRow1 : ImageRow :=
  { id := "x", digest := "sha256:bb", repository := none, tags := [],
    size := 1, created_at := 0 }

/-- Witness for the amended C4 at concrete colliding inputs. -/
theorem c4_amended_witness :
    (network_insert_conflict [netRow0] "x" "bridge0" = true ∧
     volume_insert_conflict [volRow1] "x" "bridge0" = true ∧
     image_insert_conflict [imgRow1] "x" "d" = true) ∧
    (create_network [netRow0] "x" "bridge0" "local" none none none 2 =
       .error (.database "UNIQUE constraint failed") ∧
     create_volume [volRow1] "x" "bridge0" "local" "/m" none none 2 =
       .error (.database "UNIQUE constraint failed") ∧
     (StateError.database "UNIQUE constraint failed").isAlreadyExists = false ∧
     create_image [imgRow1] "x" "d" none [] 0 2 =
       .error (.imageAlreadyExists "x") ∧
     (StateError.imageAlreadyExists "x").isAlreadyExists = true) := by
  constructor
  · exact ⟨by decide, by decide, by decide⟩
  · exact c4_amended [netRow0] [volRow1] [imgRow1] "x" "bridge0" "local" "/m" "d" 2
      (by decide) (by decide) (by decide)

end Vordr

namespace Vordr

/-- A row of the `locks` table from `engine/state.rs`.  Modelled from the
spec where the schema is concerned: (resource_type, resource_id) is the
primary key (schema.sql absent from src). -/
structure LockRow where
  resource_type : String
  resource_id : String
  owner_pid : Int
deriving DecidableEq, Repr

/-- Whether a lock row carries the given (resource_type, resource_id) key. -/
def same_lock_key (r : LockRow) (t i : String) : Bool :=
  r.resource_type = t ∧ r.resource_id = i

/-- One iteration of the loop body of `StateManager::cleanup_stale_locks`:
if the owner process of the snapshot entry `l` is no longer alive, delete
every row of the current table carrying the key of `l`. -/
def reap_step (alive : Int → Bool) (table : List LockRow) (l : LockRow) :
    List LockRow :=
  if alive l.owner_pid then table
  else table.filter (fun r => !(same_lock_key r l.resource_type l.resource_id))

/-- `StateManager::cleanup_stale_locks` from `engine/state.rs`: read a
snapshot of all lock rows, then for each snapshot entry whose owner pid
fails the liveness probe, DELETE the rows with that key.  The liveness
probe (signal-0 delivery) is the oracle `alive`. -/
def cleanup_stale_locks (alive : Int → Bool) (locks : List LockRow) :
    List LockRow :=
  locks.foldl (reap_step alive) locks

/-- `StateManager::acquire_lock` from `engine/state.rs`: first reap stale
locks, then INSERT a row owned by the calling process; a constraint
violation of the INSERT is mapped to `LockFailed`. -/
def acquire_lock (alive : Int → Bool) (self_pid : Int) (locks : List LockRow)
    (resource_type resource_id : String) : Except StateError (List LockRow) :=
  let cleaned := cleanup_stale_locks alive locks
  if cleaned.any (fun l => same_lock_key l resource_type resource_id) then
    .error (.lockFailed (resource_type ++ ":" ++ resource_id))
  else
    .ok (cleaned ++ [{ resource_type := resource_type, resource_id := resource_id,
                       owner_pid := self_pid }])

/-- Membership after folding `reap_step` over a snapshot: a row survives
iff it was in the initial table and no snapshot entry with a dead owner
shares its key. -/
theorem mem_foldl_reap (alive : Int → Bool) (todo : List LockRow) :
    ∀ (acc : List LockRow) (r : LockRow),
      (r ∈ todo.foldl (reap_step alive) acc ↔
        r ∈ acc ∧ ∀ l ∈ todo, alive l.owner_pid = false →
          same_lock_key r l.resource_type l.resource_id = false) := by
  induction todo with
  | nil => simp
  | cons l todo ih =>
    intro acc r
    rw [List.foldl_cons, ih]
    unfold reap_step
    by_cases h : alive l.owner_pid
    · simp [h]
    · simp only [Bool.not_eq_true] at h
      simp [h, List.mem_filter, and_assoc]

/-- A row survives `cleanup_stale_locks` iff it was present and no lock row
with a dead owner shares its key. -/
theorem mem_cleanup_stale_locks (alive : Int → Bool) (locks : List LockRow)
    (r : LockRow) :
    r ∈ cleanup_stale_locks alive locks ↔
      r ∈ locks ∧ ∀ l ∈ locks, alive l.owner_pid = false →
        same_lock_key r l.resource_type l.resource_id = false :=
  mem_foldl_reap alive locks locks r

/-- Under the primary-key invariant, `cleanup_stale_locks` keeps exactly the
rows whose owner is alive. -/
theorem mem_cleanup_of_unique (alive : Int → Bool) (locks : List LockRow)
    (huniq : ∀ l ∈ locks, ∀ l' ∈ locks,
      l.resource_type = l'.resource_type → l.resource_id = l'.resource_id → l = l')
    (r : LockRow) :
    r ∈ cleanup_stale_locks alive locks ↔ r ∈ locks ∧ alive r.owner_pid = true := by
  rw [mem_cleanup_stale_locks]
  constructor
  · rintro ⟨hr, hall⟩
    refine ⟨hr, ?_⟩
    by_contra hdead
    simp only [Bool.not_eq_true] at hdead
    have := hall r hr hdead
    simp [same_lock_key] at this
  · rintro ⟨hr, halive⟩
    refine ⟨hr, fun l hl hdead => ?_⟩
    by_contra hkey
    simp only [Bool.not_eq_false, same_lock_key, decide_eq_true_eq] at hkey
    have : r = l := huniq r hr l hl hkey.1 hkey.2
    subst this
    rw [halive] at hdead
    exact absurd hdead (by simp)

/-- Claim C5: `acquire_lock` first deletes every lock row whose owner is no
longer alive, then inserts a row owned by the calling process; it returns
`LockFailed` exactly when a live-owner row for the same key exists, so a
contender acquiring a lock whose prior owner exited succeeds after the
stale-owner reap. -/
theorem c5_acquire_lock (alive : Int → Bool) (self_pid : Int) (locks : List LockRow)
    (t i : String)
    (huniq : ∀ l ∈ locks, ∀ l' ∈ locks,
      l.resource_type = l'.resource_type → l.resource_id = l'.resource_id → l = l') :
    ((∃ e, acquire_lock alive self_pid locks t i = .error e) ↔
        ∃ l ∈ locks, same_lock_key l t i = true ∧ alive l.owner_pid = true) ∧
    (∀ e, acquire_lock alive self_pid locks t i = .error e →
        e = .lockFailed (t ++ ":" ++ i)) ∧
    (∀ r, r ∈ cleanup_stale_locks alive locks ↔
        r ∈ locks ∧ alive r.owner_pid = true) ∧
    (∀ table, acquire_lock alive self_pid locks t i = .ok table →
        table = cleanup_stale_locks alive locks ++
          [{ resource_type := t, resource_id := i, owner_pid := self_pid }]) := by
  have hclean := mem_cleanup_of_unique alive locks huniq
  have hcond : ((cleanup_stale_locks alive locks).any
      (fun l => same_lock_key l t i) = true) ↔
      ∃ l ∈ locks, same_lock_key l t i = true ∧ alive l.owner_pid = true := by
    rw [List.any_eq_true]
    constructor
    · rintro ⟨l, hl, hk⟩
      obtain ⟨hmem, halive⟩ := (hclean l).mp hl
      exact ⟨l, hmem, hk, halive⟩
    · rintro ⟨l, hmem, hk, halive⟩
      exact ⟨l, (hclean l).mpr ⟨hmem, halive⟩, hk⟩
  unfold acquire_lock
  by_cases hc : (cleanup_stale_locks alive locks).any (fun l => same_lock_key l t i) = true
  · simp only [hc, if_true]
    refine ⟨⟨fun _ => hcond.mp hc, fun _ => ⟨_, rfl⟩⟩, ?_, hclean, ?_⟩
    · intro e he
      exact (Except.error.injEq _ _).mp he.symm
    · intro table htable
      exact absurd htable (by simp)
  · simp only [Bool.not_eq_true] at hc
    simp only [hc, if_false]
    refine ⟨⟨?_, ?_⟩, ?_, hclean, ?_⟩
    · rintro ⟨e, he⟩
      exact absurd he (by simp)
    · intro hex
      rw [← hcond] at hex
      rw [hc] at hex
      exact absurd hex (by simp)
    · intro e he
      exact absurd he (by simp)
    · intro table htable
      exact ((Except.ok.injEq _ _).mp htable).symm

/-- The lock table of the crashed-owner scenario: process 42 acquired
(image, alpine:latest) and then exited. -/
def staleLocks : List LockRow :=
  [{ resource_type := "image", resource_id := "alpine:latest", owner_pid := 42 }]

/-- The liveness oracle of the crashed-owner scenario: only the contender
process 7 is alive. -/
def onlySevenAlive : Int → Bool := fun p => p = 7

/-- Witness for C5 in the crashed-owner scenario: the prior owner (pid 42)
is dead, so the contender (pid 7) succeeds after the stale-owner reap. -/
theorem c5_acquire_lock_witness :
    (∀ l ∈ staleLocks, ∀ l' ∈ staleLocks,
      l.resource_type = l'.resource_type → l.resource_id = l'.resource_id → l = l') ∧
    (((∃ e, acquire_lock onlySevenAlive 7 staleLocks "image" "alpine:latest" = .error e) ↔
        ∃ l ∈ staleLocks, same_lock_key l "image" "alpine:latest" = true ∧
          onlySevenAlive l.owner_pid = true) ∧
     (∀ e, acquire_lock onlySevenAlive 7 staleLocks "image" "alpine:latest" = .error e →
        e = .lockFailed ("image" ++ ":" ++ "alpine:latest")) ∧
     (∀ r, r ∈ cleanup_stale_locks onlySevenAlive staleLocks ↔
        r ∈ staleLocks ∧ onlySevenAlive r.owner_pid = true) ∧
     (∀ table, acquire_lock onlySevenAlive 7 staleLocks "image" "alpine:latest" = .ok table →
        table = cleanup_stale_locks onlySevenAlive staleLocks ++
          [{ resource_type := "image", resource_id := "alpine:latest", owner_pid := 7 }])) :=
  ⟨by decide, c5_acquire_lock onlySevenAlive 7 staleLocks "image" "alpine:latest" (by decide)⟩

end Vordr

namespace Vordr

/-- `LifecycleError` from `engine/lifecycle.rs`.  The `state` variant wraps
a `StateError`; `runtime`, `io` and `config` carry their message. -/
inductive LifecycleError
  | notFound (id : String)
  | alreadyExists (id : String)
  | invalidTransition (fromState toState : ContainerState)
  | runtime (msg : String)
  | state (e : StateError)
  | io (msg : String)
  | config (msg : String)
deriving DecidableEq, Repr

/-- SIGTERM signal number (libc). -/
def SIGTERM : Int := 15

/-- SIGKILL signal number (libc). -/
def SIGKILL : Int := 9

/-- Observable outcome of `ContainerLifecycle::start`: whether the runtime
shim was invoked, the `set_container_state` call made (state, pid), and the
returned value. -/
structure StartResult where
  shimInvoked : Bool
  stateUpdate : Option (ContainerState × Option Int)
  result : Except LifecycleError Nat
deriving Repr

/-- `ContainerLifecycle::start` from `engine/lifecycle.rs`, applied to the
fetched container row.  The external `shim.create_and_start` call is the
oracle `shim_create_and_start` (pid on success, stderr text on failure).
The guard rejects every state other than Created with
`InvalidTransition(current, Running)` before the shim is touched. -/
def lifecycle_start (container : ContainerRow)
    (shim_create_and_start : Except String Nat) : StartResult :=
  if container.state ≠ ContainerState.created then
    { shimInvoked := false, stateUpdate := none,
      result := .error (.invalidTransition container.state .running) }
  else
    match shim_create_and_start with
    | .error e =>
      { shimInvoked := true, stateUpdate := none, result := .error (.runtime e) }
    | .ok pid =>
      { shimInvoked := true, stateUpdate := some (.running, some (pid : Int)),
        result := .ok pid }

/-- Claim C7: `start` on a container in any state other than Created fails
with `InvalidTransition` carrying the current state and Running, without
invoking the runtime shim and without any state-row update; in particular a
second start on a running container yields
InvalidTransition(Running, Running). -/
theorem c7_start_guard (container : ContainerRow)
    (shim : Except String Nat) (h : container.state ≠ ContainerState.created) :
    (lifecycle_start container shim).result =
      .error (.invalidTransition container.state .running) ∧
    (lifecycle_start container shim).shimInvoked = false ∧
    (lifecycle_start container shim).stateUpdate = none := by
  unfold lifecycle_start
  rw [if_pos h]
  exact ⟨rfl, rfl, rfl⟩

/-- A running container row for the double-start witness. -/
def runningRow : ContainerRow :=
  { id := "c2", name := "api", image_id := "img1", bundle_path := "/r/containers/c2"
    state := .running, pid := some 101, exit_code := none
    created_at := 1, started_at := some 2, finished_at := none, config := none }

/-- Witness for C7: the double-start scenario.  A second `start` on the
already-running container fails with InvalidTransition(Running, Running)
and the shim is never spawned. -/
theorem c7_start_guard_witness :
    runningRow.state ≠ ContainerState.created ∧
    ((lifecycle_start runningRow (.ok 102)).result =
        .error (.invalidTransition ContainerState.running ContainerState.running) ∧
      (lifecycle_start runningRow (.ok 102)).shimInvoked = false ∧
      (lifecycle_start runningRow (.ok 102)).stateUpdate = none) :=
  ⟨by decide, c7_start_guard runningRow (.ok 102) (by decide)⟩

/-- The graceful-stop polling loop of `ContainerLifecycle::stop`, indexed
by the remaining number of 100 ms polls (`remaining = deadline tick − k`)
and the current tick `k`.  While ticks remain, probe liveness at the
current tick: a dead probe exits the loop early (and the subsequent
re-probe — still at the same tick — again reports dead, so no SIGKILL); an
exhausted deadline re-probes at the final tick and reports whether the
process is still alive, in which case SIGKILL follows.  Returns the value
of the post-loop `process_exists` check. -/
def stop_poll_alive (alive : Nat → Bool) : Nat → Nat → Bool
  | 0, k => alive k
  | n + 1, k => if alive k then stop_poll_alive alive n (k + 1) else false

/-- The polling loop reports the process alive at its end iff the process
was alive at every probed tick up to and including the deadline. -/
theorem stop_poll_alive_iff (alive : Nat → Bool) :
    ∀ (n k : Nat), (stop_poll_alive alive n k = true ↔
      ∀ j, k ≤ j → j ≤ k + n → alive j = true) := by
  intro n
  induction n with
  | zero =>
    intro k
    simp only [stop_poll_alive]
    constructor
    · intro h j hkj hjk
      have : j = k := le_antisymm (by omega) hkj
      rw [this]; exact h
    · intro h
      exact h k le_rfl (by omega)
  | succ n ih =>
    intro k
    simp only [stop_poll_alive]
    by_cases ha : alive k
    · rw [if_pos ha, ih (k + 1)]
      constructor
      · intro h j hkj hjk
        rcases Nat.eq_or_lt_of_le hkj with rfl | hlt
        · exact ha
        · exact h j hlt (by omega)
      · intro h j hkj hjk
        exact h j (by omega) (by omega)
    · rw [if_neg ha]
      constructor
      · intro h
        exact absurd h (by simp)
      · intro h
        exact absurd (h k le_rfl (by omega)) ha

/-- Observable outcome of `ContainerLifecycle::stop`: the signals sent to
the recorded pid (in order), the `set_container_state` call made, and the
returned value. -/
structure StopResult where
  signals : List Int
  stateUpdate : Option (ContainerState × Option Int)
  result : Except LifecycleError Unit
deriving Repr

/-- `ContainerLifecycle::stop` from `engine/lifecycle.rs`, applied to the
fetched container row.  The guard rejects non-Running states.  With a
recorded pid: send SIGTERM, poll liveness every 100 ms until the deadline
(`timeout_secs` seconds = `timeout_secs * 10` polls), send SIGKILL iff the
process is still alive at the deadline, and finally record Stopped with the
pid cleared — always returning success.  `alive j` is the liveness probe at
the j-th 100 ms tick after SIGTERM. -/
def lifecycle_stop (container : ContainerRow) (timeout_secs : Nat)
    (alive : Nat → Bool) : StopResult :=
  if container.state ≠ ContainerState.running then
    { signals := [], stateUpdate := none,
      result := .error (.invalidTransition container.state .stopped) }
  else
    match container.pid with
    | none =>
      { signals := [], stateUpdate := some (.stopped, none), result := .ok () }
    | some _ =>
      { signals := SIGTERM ::
          (if stop_poll_alive alive (timeout_secs * 10) 0 then [SIGKILL] else []),
        stateUpdate := some (.stopped, none), result := .ok () }

/-- Claim C6: stopping a Running container with a recorded pid sends
SIGTERM, polls liveness at 100 ms ticks for `timeout_secs` seconds, sends
SIGKILL exactly when the process is still alive at the deadline, always
records Stopped with the pid cleared, and never surfaces the graceful
timeout as an error. -/
theorem c6_stop (container : ContainerRow) (p : Int) (timeout_secs : Nat)
    (alive : Nat → Bool) (hs : container.state = ContainerState.running)
    (hp : container.pid = some p) :
    (lifecycle_stop container timeout_secs alive).result = .ok () ∧
    (lifecycle_stop container timeout_secs alive).stateUpdate =
      some (ContainerState.stopped, none) ∧
    (lifecycle_stop container timeout_secs alive).signals.head? = some SIGTERM ∧
    ((lifecycle_stop container timeout_secs alive).signals = [SIGTERM, SIGKILL] ↔
      ∀ j, j ≤ timeout_secs * 10 → alive j = true) ∧
    ((lifecycle_stop container timeout_secs alive).signals = [SIGTERM] ↔
      ¬ ∀ j, j ≤ timeout_secs * 10 → alive j = true) := by
  have hguard : ¬ container.state ≠ ContainerState.running := fun h => h hs
  have hiff : stop_poll_alive alive (timeout_secs * 10) 0 = true ↔
      ∀ j, j ≤ timeout_secs * 10 → alive j = true := by
    rw [stop_poll_alive_iff alive (timeout_secs * 10) 0]
    exact ⟨fun h j hj => h j (Nat.zero_le j) (by omega),
           fun h j _ hj => h j (by omega)⟩
  have heval : lifecycle_stop container timeout_secs alive =
      { signals := SIGTERM ::
          (if stop_poll_alive alive (timeout_secs * 10) 0 then [SIGKILL] else []),
        stateUpdate := some (ContainerState.stopped, none), result := .ok () } := by
    simp only [lifecycle_stop, if_neg hguard, hp]
  rw [heval]
  cases hb : stop_poll_alive alive (timeout_secs * 10) 0 with
  | true =>
    have hall := hiff.mp hb
    refine ⟨rfl, rfl, rfl, ?_, ?_⟩
    · exact iff_of_true rfl hall
    · exact iff_of_false (by decide) (not_not_intro hall)
  | false =>
    have hnall : ¬ ∀ j, j ≤ timeout_secs * 10 → alive j = true := by
      intro h
      rw [hiff.mpr h] at hb
      exact absurd hb (by decide)
    refine ⟨rfl, rfl, rfl, ?_, ?_⟩
    · exact iff_of_false (by decide) hnall
    · exact iff_of_true rfl hnall

/-- A running container row (pid 4242) for the stop witness. -/
def stubbornRow : ContainerRow :=
  { id := "c3", name := "worker", image_id := "img1", bundle_path := "/r/containers/c3"
    state := .running, pid := some 4242, exit_code := none
    created_at := 1, started_at := some 2, finished_at := none, config := none }

/-- A process that ignores SIGTERM: alive at every tick. -/
def alwaysAlive : Nat → Bool := fun _ => true

/-- Witness for C6: the graceful-stop-timeout scenario with timeout 1 s.
The process ignores SIGTERM, so at the deadline a SIGKILL is issued; the
state still becomes Stopped and no error is surfaced. -/
theorem c6_stop_witness :
    (stubbornRow.state = ContainerState.running ∧ stubbornRow.pid = some 4242) ∧
    ((lifecycle_stop stubbornRow 1 alwaysAlive).result = .ok () ∧
     (lifecycle_stop stubbornRow 1 alwaysAlive).stateUpdate =
       some (ContainerState.stopped, none) ∧
     (lifecycle_stop stubbornRow 1 alwaysAlive).signals.head? = some SIGTERM ∧
     ((lifecycle_stop stubbornRow 1 alwaysAlive).signals = [SIGTERM, SIGKILL] ↔
       ∀ j, j ≤ 1 * 10 → alwaysAlive j = true) ∧
     ((lifecycle_stop stubbornRow 1 alwaysAlive).signals = [SIGTERM] ↔
       ¬ ∀ j, j ≤ 1 * 10 → alwaysAlive j = true)) :=
  ⟨⟨rfl, rfl⟩, c6_stop stubbornRow 4242 1 alwaysAlive rfl rfl⟩

end Vordr

namespace Vordr

/-- Observable outcome of `ContainerLifecycle::delete`: the signals sent to
the recorded pid, whether the bundle directory was removed (recursively, if
present), whether the database row was deleted, and the returned value. -/
structure DeleteResult where
  signals : List Int
  bundleRemoved : Bool
  rowDeleted : Bool
  result : Except LifecycleError Unit
deriving Repr

/-- `ContainerLifecycle::delete` from `engine/lifecycle.rs`, applied to the
fetched container row.  Only the combination Running with `force = false`
is rejected (as `InvalidTransition(Running, Stopped)`).  Otherwise: SIGKILL
the recorded pid when the state is Running (which here implies the call was
forced), remove the bundle directory, delete the row. -/
def lifecycle_delete (container : ContainerRow) (force : Bool) : DeleteResult :=
  if container.state = ContainerState.running ∧ force = false then
    { signals := [], bundleRemoved := false, rowDeleted := false,
      result := .error (.invalidTransition container.state .stopped) }
  else
    { signals :=
        if container.state = ContainerState.running then
          match container.pid with
          | some _ => [SIGKILL]
          | none => []
        else []
      bundleRemoved := true, rowDeleted := true, result := .ok () }

/-- Claim C10: `delete` accepts a Paused (or Created or Stopped) container
even with `force = false`, sends no signal in those states, and removes the
bundle directory and the row; a SIGKILL is sent only when the state is
Running, which requires `force = true`. -/
theorem c10_delete (container : ContainerRow) (force : Bool)
    (h : container.state ≠ ContainerState.running) :
    lifecycle_delete container force =
      { signals := [], bundleRemoved := true, rowDeleted := true,
        result := .ok () } ∧
    ∀ (c : ContainerRow) (f : Bool),
      SIGKILL ∈ (lifecycle_delete c f).signals →
        c.state = ContainerState.running ∧ f = true := by
  constructor
  · unfold lifecycle_delete
    rw [if_neg (fun hc => h hc.1)]
    rw [if_neg h]
  · intro c f hsig
    unfold lifecycle_delete at hsig
    by_cases hg : c.state = ContainerState.running ∧ f = false
    · rw [if_pos hg] at hsig
      exact absurd hsig (by simp)
    · rw [if_neg hg] at hsig
      by_cases hr : c.state = ContainerState.running
      · refine ⟨hr, ?_⟩
        by_contra hf
        exact hg ⟨hr, Bool.not_eq_true f ▸ hf⟩
      · rw [if_neg hr] at hsig
        exact absurd hsig (by simp)

/-- A paused container row (pid 33) for the delete witness. -/
def pausedRow2 : ContainerRow :=
  { id := "c4", name := "cache", image_id := "img1", bundle_path := "/r/containers/c4"
    state := .paused, pid := some 33, exit_code := none
    created_at := 1, started_at := some 2, finished_at := none, config := none }

/-- Witness for C10: deleting the paused container without force succeeds,
sends no signal, and removes both the bundle directory and the row. -/
theorem c10_delete_witness :
    pausedRow2.state ≠ ContainerState.running ∧
    (lifecycle_delete pausedRow2 false =
      { signals := [], bundleRemoved := true, rowDeleted := true,
        result := .ok () } ∧
     ∀ (c : ContainerRow) (f : Bool),
       SIGKILL ∈ (lifecycle_delete c f).signals →
         c.state = ContainerState.running ∧ f = true) :=
  ⟨by decide, c10_delete pausedRow2 false (by decide)⟩

end Vordr

namespace Vordr

/-- The durable state touched by `ContainerLifecycle::create`: the set of
on-disk directories, the set of written files, and the `containers` table. -/
structure World where
  dirs : List String
  files : List String
  containers : List ContainerRow
deriving DecidableEq, Repr

/-- `std::fs::create_dir_all`: creating an existing directory is a no-op. -/
def mkdir_all (dirs : List String) (d : String) : List String :=
  if d ∈ dirs then dirs else dirs ++ [d]

/-- `std::fs::write`: writing a file records its path (idempotent here,
content is not modelled). -/
def write_file (files : List String) (f : String) : List String :=
  if f ∈ files then files else files ++ [f]

/-- Modelled from the spec: containers.id is the primary key and
containers.name is unique (schema.sql absent from src). -/
def container_insert_conflict (db : List ContainerRow) (id name : String) : Bool :=
  db.any (fun r => r.id = id ∨ r.name = name)

/-- `StateManager::create_container` from `engine/state.rs`: INSERT a
Created row; a constraint violation maps to `ContainerAlreadyExists(name)`. -/
def create_container (db : List ContainerRow) (id name image_id bundle_path : String)
    (config : Option String) (now : Nat) : Except StateError (List ContainerRow) :=
  if container_insert_conflict db id name then
    .error (.containerAlreadyExists name)
  else
    .ok (db ++ [{ id := id, name := name, image_id := image_id,
                  bundle_path := bundle_path, state := .created, pid := none,
                  exit_code := none, created_at := now, started_at := none,
                  finished_at := none, config := config }])

/-- `ContainerLifecycle::create` from `engine/lifecycle.rs`: create the
bundle directory `<root>/containers/<id>/` and its `rootfs/`, write
`config.json`, then INSERT the Created row.  The function returns the
result together with the durable state as it is when the function returns;
on an insert failure the error simply propagates via `?` — the source has
no cleanup of the just-created bundle directory. -/
def lifecycle_create (w : World) (root_dir id name image_id : String)
    (config_blob : Option String) (now : Nat) :
    Except LifecycleError ContainerRow × World :=
  let bundle_path := root_dir ++ "/containers/" ++ id
  let dirs1 := mkdir_all w.dirs bundle_path
  let dirs2 := mkdir_all dirs1 (bundle_path ++ "/rootfs")
  let files1 := write_file w.files (bundle_path ++ "/config.json")
  let w1 : World := { dirs := dirs2, files := files1, containers := w.containers }
  match create_container w.containers id name image_id bundle_path config_blob now with
  | .error e => (.error (.state e), w1)
  | .ok db =>
    (.ok { id := id, name := name, image_id := image_id, bundle_path := bundle_path,
           state := .created, pid := none, exit_code := none, created_at := now,
           started_at := none, finished_at := none, config := config_blob },
     { w1 with containers := db })

/-- A world that already contains a container named "web". -/
def worldWithWeb : World :=
  { dirs := [], files := [],
    containers := [{ id := "aa11", name := "web", image_id := "img1",
                     bundle_path := "/r/containers/aa11", state := .created,
                     pid := none, exit_code := none, created_at := 0,
                     started_at := none, finished_at := none, config := none }] }

/-- Claim C1 as stated is false: when the row insertion fails (here on a
name collision) after the bundle directory was created, `create` returns
the error with the bundle directory still on disk — the persistent state is
not left exactly as before the call. -/
theorem c1_counterexample :
    (lifecycle_create worldWithWeb "/r" "bb22" "web" "img1" none 1).1 =
      .error (.state (.containerAlreadyExists "web")) ∧
    "/r/containers/bb22" ∈ (lifecycle_create worldWithWeb "/r" "bb22" "web" "img1" none 1).2.dirs ∧
    (lifecycle_create worldWithWeb "/r" "bb22" "web" "img1" none 1).2 ≠ worldWithWeb := by
  refine ⟨rfl, ?_, ?_⟩
  · decide
  · decide

/-- Membership is preserved and gained by `mkdir_all`. -/
theorem mem_mkdir_all (dirs : List String) (d x : String) :
    (x ∈ mkdir_all dirs d ↔ x ∈ dirs ∨ x = d) := by
  unfold mkdir_all
  by_cases h : d ∈ dirs
  · rw [if_pos h]
    constructor
    · exact Or.inl
    · rintro (hx | rfl)
      · exact hx
      · exact h
  · rw [if_neg h]
    simp [List.mem_append]

/-- Claim C1 amended: when the database row insertion fails after the
bundle directory was created, `create` returns the insertion error but the
bundle directory is NOT removed — it remains on disk while the containers
table is unchanged, so the persistent state differs from before the call
precisely by the leftover bundle directory and config file. -/
theorem c1_amended (w : World) (root_dir id name image_id : String)
    (config_blob : Option String) (now : Nat)
    (h : container_insert_conflict w.containers id name = true) :
    (lifecycle_create w root_dir id name image_id config_blob now).1 =
      .error (.state (.containerAlreadyExists name)) ∧
    (root_dir ++ "/containers/" ++ id) ∈
      (lifecycle_create w root_dir id name image_id config_blob now).2.dirs ∧
    (lifecycle_create w root_dir id name image_id config_blob now).2.containers =
      w.containers := by
  have herr : create_container w.containers id name image_id
      (root_dir ++ "/containers/" ++ id) config_blob now =
      .error (.containerAlreadyExists name) := by
    unfold create_container
    rw [if_pos h]
  unfold lifecycle_create
  simp only [herr]
  refine ⟨trivial, ?_, trivial⟩
  rw [mem_mkdir_all]
  left
  rw [mem_mkdir_all]
  right
  rfl

/-- Witness for the amended C1 at the concrete name collision. -/
theorem c1_amended_witness :
    container_insert_conflict worldWithWeb.containers "bb22" "web" = true ∧
    ((lifecycle_create worldWithWeb "/r" "bb22" "web" "img1" none 1).1 =
       .error (.state (.containerAlreadyExists "web")) ∧
     ("/r" ++ "/containers/" ++ "bb22") ∈
       (lifecycle_create worldWithWeb "/r" "bb22" "web" "img1" none 1).2.dirs ∧
     (lifecycle_create worldWithWeb "/r" "bb22" "web" "img1" none 1).2.containers =
       worldWithWeb.containers) :=
  ⟨by decide, c1_amended worldWithWeb "/r" "bb22" "web" "img1" none 1 (by decide)⟩

end Vordr

namespace Vordr

/-- `GatekeeperError` from `ffi/gatekeeper.rs`. -/
inductive GatekeeperError
  | invalidCapabilities
  | invalidUserNamespace
  | invalidNetworkMode
  | invalidPrivilegeEscape
  | parseError
  | internalError
  | nullByte
  | notReady
deriving DecidableEq, Repr

/-- `GatekeeperError::from_code` from `ffi/gatekeeper.rs`: 0 is success,
codes 1 to 5 are the classified rejections, anything else is internal. -/
def GatekeeperError.from_code (code : Int) : Except GatekeeperError Unit :=
  if code = 0 then .ok ()
  else if code = 1 then .error .invalidCapabilities
  else if code = 2 then .error .invalidUserNamespace
  else if code = 3 then .error .invalidNetworkMode
  else if code = 4 then .error .invalidPrivilegeEscape
  else if code = 5 then .error .parseError
  else .error .internalError

/-- `CString::new` fails exactly when the input contains a null byte;
modelled on the character level of the Lean string (a UTF-8 encoded text
contains the byte 0 iff it contains the character U+0000). -/
def has_null_byte (s : String) : Bool :=
  s.data.contains (Char.ofNat 0)

/-- Outcome of an FFI wrapper call: whether the underlying Ada gatekeeper
function was invoked, and the value returned to the caller. -/
structure FfiOutcome (α : Type) where
  gatekeeperInvoked : Bool
  result : Except GatekeeperError α

/-- `validate_oci_config` from `ffi/gatekeeper.rs`: `CString::new` is tried
first and a null byte maps to `NullByte` before the FFI call; otherwise the
external `verify_json_config` (the oracle) is invoked and its return code
classified by `from_code`. -/
def validate_oci_config (verify_json_config : String → Int)
    (json_content : String) : FfiOutcome Unit :=
  if has_null_byte json_content then
    { gatekeeperInvoked := false, result := .error .nullByte }
  else
    { gatekeeperInvoked := true,
      result := GatekeeperError.from_code (verify_json_config json_content) }

/-- `sanitise_oci_config` from `ffi/gatekeeper.rs`: same null-byte check
before the FFI call; otherwise the external `sanitise_config` (the oracle,
returning the status code and the bytes it wrote into the output buffer) is
invoked — a negative code is classified by `from_code` of its negation, a
non-negative code yields the buffer contents truncated to that length. -/
def sanitise_oci_config (sanitise_config : String → Int × String)
    (json_content : String) : FfiOutcome String :=
  if has_null_byte json_content then
    { gatekeeperInvoked := false, result := .error .nullByte }
  else
    let r := sanitise_config json_content
    { gatekeeperInvoked := true,
      result :=
        if r.1 < 0 then
          match GatekeeperError.from_code (-r.1) with
          | .ok _ => .ok ""
          | .error e => .error e
        else .ok r.2 }

/-- Claim C8: for every input string containing a null byte, both the
validate and the sanitise entry points return the `NullByte` error at the
language boundary without ever invoking the underlying gatekeeper
function, whatever that function would have answered. -/
theorem c8_null_byte (verify : String → Int) (san : String → Int × String)
    (json : String) (h : has_null_byte json = true) :
    (validate_oci_config verify json).gatekeeperInvoked = false ∧
    (validate_oci_config verify json).result = .error .nullByte ∧
    (sanitise_oci_config san json).gatekeeperInvoked = false ∧
    (sanitise_oci_config san json).result = .error .nullByte := by
  unfold validate_oci_config sanitise_oci_config
  rw [if_pos h, if_pos h]
  exact ⟨rfl, rfl, rfl, rfl⟩

/-- A configuration string with an embedded null byte. -/
def nullByteJson : String :=
  String.mk ['a', Char.ofNat 0, 'b']

/-- Witness for C8 at a concrete string with an embedded null byte, with
an always-accepting oracle for both entry points. -/
theorem c8_null_byte_witness :
    has_null_byte nullByteJson = true ∧
    ((validate_oci_config (fun _ => 0) nullByteJson).gatekeeperInvoked = false ∧
     (validate_oci_config (fun _ => 0) nullByteJson).result = .error .nullByte ∧
     (sanitise_oci_config (fun s => (0, s)) nullByteJson).gatekeeperInvoked = false ∧
     (sanitise_oci_config (fun s => (0, s)) nullByteJson).result = .error .nullByte) :=
  ⟨by decide, c8_null_byte (fun _ => 0) (fun s => (0, s)) nullByteJson (by decide)⟩

end Vordr
